import Mathlib

/-!
Verification of the serverless-otel ingest path: shallow embedding of the
segment-lease subsystem and the segment writer, translated from the Python
sources (src/libs/serverless_otel, src/services/ingest_svc,
src/ingest-lambda, src/ingest_lambda), together with theorems settling the
specification claims.
-/

set_option maxRecDepth 4000

/-- Modelled from the spec: `serverless_otel/common/constants.py` is absent from
the sources; the spec defines the bucket width as `B · 60·10⁹` nanoseconds, so
`NS_PER_MIN = 60·10⁹`. -/
def NS_PER_MIN : Nat := 60 * 1000000000

/-- Modelled from the spec: `constants.py` is absent; the spec derives
`ms = floor(ns / 10⁶)`, so `NS_PER_MS = 10⁶` (corroborated by
`src/api_spammer/main.py`, which defines `NS_PER_MS = 1000000`). -/
def NS_PER_MS : Nat := 1000000

/-- Modelled from the spec: `constants.py` is absent; the object-store acquire
loop bounds `clock() - start` by `timeout · 10⁹`, so `NS_PER_S = 10⁹`. -/
def NS_PER_S : Nat := 1000000000

/-! ### CPython float semantics of `a / b` on ints

`math.floor(a / b)` in the Python sources performs *float* true division:
CPython's `int.__truediv__` returns the IEEE-754 double nearest to the exact
rational `a / b` (round half to even, 53-bit significand).  We model that
rounding exactly with natural-number arithmetic. -/

/-- Round `num / den` to the nearest integer, ties to even (`den > 0`). -/
def rne (num den : Nat) : Nat :=
  let q := num / den
  let r := num % den
  if 2 * r < den then q
  else if den < 2 * r then q + 1
  else if q % 2 = 0 then q else q + 1

/-- Fuel-driven floor of `log2 n` (structural, so the kernel can evaluate it). -/
def log2fuel : Nat → Nat → Nat
  | 0, _ => 0
  | f + 1, n => if 2 ≤ n then log2fuel f (n / 2) + 1 else 0

/-- Floor of `log2 n` for `n ≥ 1`. -/
def plog2 (n : Nat) : Nat := log2fuel n n

/-- `math.floor(a / b)` for Python ints `a ≥ 0`, `b > 0`: floor of the
correctly-rounded IEEE-754 double closest to the exact rational `a / b`.
The significand of the double is the 53-bit round-to-nearest-even value of
`a / b` scaled to `[2^52, 2^53)`; flooring then discards the fractional bits.
(For `a < b` the model rounds at the 2^-52 grain, which agrees with the double
result on all floors except a vanishing band just below 1.) -/
def floorTrueDiv (a b : Nat) : Nat :=
  if a = 0 then 0
  else
    let e := plog2 (a / b)
    if e ≤ 52 then rne (a * 2 ^ (52 - e)) b / 2 ^ (52 - e)
    else rne a (b * 2 ^ (e - 52)) * 2 ^ (e - 52)

/-- Ceiling counterpart of `floorTrueDiv` (used for negative numerators). -/
def ceilTrueDiv (a b : Nat) : Nat :=
  if a = 0 then 0
  else
    let e := plog2 (a / b)
    if e ≤ 52 then (rne (a * 2 ^ (52 - e)) b + 2 ^ (52 - e) - 1) / 2 ^ (52 - e)
    else rne a (b * 2 ^ (e - 52)) * 2 ^ (e - 52)

/-- `math.floor(a / b)` for a Python int `a` (possibly negative) and `b > 0`. -/
def floorTrueDivInt (a : Int) (b : Nat) : Int :=
  if 0 ≤ a then (floorTrueDiv a.toNat b : Int)
  else -(ceilTrueDiv a.natAbs b : Int)

/-- `src/libs/serverless_otel/common/identifier.py`, `DEFAULT_SEGMENT_SIZE_MINS`. -/
def DEFAULT_SEGMENT_SIZE_MINS : Nat := 15

/-- `src/libs/serverless_otel/common/identifier.py`, `make_segment_identifier`:
`whole = math.floor(current_nanos / (segment_bucket_size_minutes * NS_PER_MIN))`
(CPython float division) and the identifier is
`f'segment-{int(whole * (segment_bucket_size_minutes * NS_PER_MIN))}'`. -/
def make_segment_identifier (current_nanos : Int) (segment_bucket_size_minutes : Nat) : String :=
  let whole : Int := floorTrueDivInt current_nanos (segment_bucket_size_minutes * NS_PER_MIN)
  "segment-" ++ toString (whole * ((segment_bucket_size_minutes * NS_PER_MIN : Nat) : Int))

example : make_segment_identifier 1700000000000000000 15 = "segment-1699999200000000000" := by decide
example : make_segment_identifier 1700000099999999999 15 = "segment-1700000100000000000" := by decide
example : (1700000099999999999 : Nat) / (15 * NS_PER_MIN) * (15 * NS_PER_MIN) = 1699999200000000000 := by decide

/-! ### Python string / int primitives used by the record parsers -/

/-- Python `str.split(sep)` for a single-character separator, on char lists:
`''.split(c) == ['']`, and separators delimit (possibly empty) pieces. -/
def splitOnChar (sep : Char) : List Char → List (List Char)
  | [] => [[]]
  | c :: rest =>
    let r := splitOnChar sep rest
    if c = sep then [] :: r
    else
      match r with
      | [] => [[c]]
      | g :: gs => (c :: g) :: gs

/-- Python `str.lower()` restricted to ASCII (all keys in the sources are ASCII). -/
def pyLower (cs : List Char) : List Char := cs.map Char.toLower

/-- Leading/trailing whitespace strip, as `int(str)` performs before parsing. -/
def trimChars (cs : List Char) : List Char :=
  ((cs.dropWhile Char.isWhitespace).reverse.dropWhile Char.isWhitespace).reverse

/-- Digit-and-underscore tail of a Python integer literal: an underscore must
be followed by a digit, every other character must be a digit. -/
def pyIntTail : List Char → Bool
  | [] => true
  | ['_'] => false
  | '_' :: d :: rest => d.isDigit && pyIntTail rest
  | c :: rest => c.isDigit && pyIntTail rest

/-- Body of a Python integer literal after the optional sign: nonempty, starts
with a digit, then `pyIntTail`. -/
def pyIntBody : List Char → Bool
  | [] => false
  | c :: rest => c.isDigit && pyIntTail rest

/-- Accumulate decimal digits into a natural number. -/
def digitsToNat (cs : List Char) : Nat :=
  cs.foldl (fun a c => 10 * a + (c.toNat - '0'.toNat)) 0

/-- Python `int(s)`: `none` models a raised `ValueError`. -/
def pyInt (s : String) : Option Int :=
  let cs := trimChars s.data
  let signed : Bool × List Char :=
    match cs with
    | '-' :: rest => (true, rest)
    | '+' :: rest => (false, rest)
    | _ => (false, cs)
  if pyIntBody signed.2 then
    let n := digitsToNat (signed.2.filter (fun c => c ≠ '_'))
    some (if signed.1 then -(n : Int) else (n : Int))
  else none

example : pyInt "1699999999999999999" = some 1699999999999999999 := by decide
example : pyInt " -4_2 " = some (-42) := by decide
example : pyInt "abc" = none := by decide
example : pyInt "12x" = none := by decide
example : pyInt "" = none := by decide

/-! ### Python dict on string keys (insertion-ordered association list) -/

/-- `d[k] = v` on a Python dict: overwrite in place if present, else append. -/
def dictInsert (m : List (String × String)) (k v : String) : List (String × String) :=
  if m.any (fun p => p.1 = k) then
    m.map (fun p => if p.1 = k then (k, v) else p)
  else m ++ [(k, v)]

/-- `d.get(k)` on a Python dict. -/
def dictGet (m : List (String × String)) (k : String) : Option String :=
  (m.find? (fun p => p.1 = k)).map (fun p => p.2)

/-- The `key=value` line loop shared by every `_body_to_dict` in the sources:
split the body on newlines; for each line with exactly one `=`, record
`(key.lower(), value)`. -/
def parse_key_values (body : String) : List (String × String) :=
  (splitOnChar '\n' body.data).foldl
    (fun kv line =>
      match splitOnChar '=' line with
      | [k, v] => dictInsert kv (String.mk (pyLower k)) (String.mk v)
      | _ => kv)
    []

example : parse_key_values "DataSet-Id=D\nk1.int64=7\nbad line\na=b=c" =
    [("dataset-id", "D"), ("k1.int64", "7")] := by decide

/-! ### Exceptions raised by the ingest path -/

/-- The Python exceptions that flow through the handler.  `errors.py`
(`serverless_otel.common.errors`) is absent from the sources; modelled from the
spec: `BodyError`, `SegmentLockError` and `SegmentUnlockError` are the error
kinds of §7, and — because the spec states release failures are "logged, not
surfaced" while the handler's cleanup clause catches `SegmentLockError` —
`SegmentUnlockError` is modelled as a subclass of `SegmentLockError`
(see `catchesSegmentLockError`). -/
inductive PyExc where
  | bodyError (msg : String)
  | valueError
  | segmentLockError (msg : String)
  | segmentUnlockError (msg : String)
  | osError
  | sqliteError
  | attributeError
deriving Repr, DecidableEq

/-- Whether `except SegmentLockError` catches the exception.  Modelled from the
spec: `SegmentUnlockError` is included (see `PyExc`). -/
def catchesSegmentLockError : PyExc → Bool
  | .segmentLockError _ => true
  | .segmentUnlockError _ => true
  | _ => false

deriving instance DecidableEq for Except

/-! ### Record parsers (`_body_to_dict`) -/

/-- `src/ingest-lambda/ingest_lambda.py`, `__CORRELATION_CHARWIDTH__`. -/
def CORRELATION_CHARWIDTH : Nat := 60

/-- Shared timestamp-normalisation block of `_body_to_dict` (lines 228-240 of
`src/services/ingest_svc/lambda_function.py`): starting from
`ms_value = ns_value = 0`, the `timestamp-ns` block (if the key is present)
sets `ms = math.floor(int(ns_str) / NS_PER_MS)` — CPython float division — and
`ns = int(ns_str)`; then the `timestamp-ms` block (if present) overrides both
with `ms = int(ms_str)` and `ns = math.floor(int(ms_str) * NS_PER_MS)` (exact
int arithmetic, so the floor is the identity).  A failed `int()` conversion
raises `ValueError`. -/
def timestampValues (kv : List (String × String)) : Except PyExc (Int × Int) :=
  let nsStep : Except PyExc (Int × Int) :=
    match dictGet kv "timestamp-ns" with
    | none => .ok (0, 0)
    | some s =>
      match pyInt s with
      | none => .error .valueError
      | some n => .ok (n, floorTrueDivInt n NS_PER_MS)
  match nsStep with
  | .error e => .error e
  | .ok p =>
    match dictGet kv "timestamp-ms" with
    | none => .ok p
    | some s =>
      match pyInt s with
      | none => .error .valueError
      | some m => .ok (m * (NS_PER_MS : Int), m)

/-- `src/services/ingest_svc/lambda_function.py`, `_body_to_dict` (the current
service parser): parse `key=value` lines, validate `dataset-id`, require a
timestamp, normalise `timestamp-ns`/`timestamp-ms` back into the map as decimal
strings, validate `correlation-id` non-empty.  (This parser has no
correlation-id length check.) -/
def svc_body_to_dict (body : String) : Except PyExc (List (String × String)) :=
  let kv := parse_key_values body
  match dictGet kv "dataset-id" with
  | none => .error (.bodyError "No dataset-id specified")
  | some d =>
    if d.length = 0 then .error (.bodyError "No dataset-id specified")
    else if (dictGet kv "timestamp-ns").isNone ∧ (dictGet kv "timestamp-ms").isNone then
      .error (.bodyError "No timestamp specified")
    else
      match timestampValues kv with
      | .error e => .error e
      | .ok (ns, ms) =>
        let kv2 := dictInsert (dictInsert kv "timestamp-ns" (toString ns)) "timestamp-ms" (toString ms)
        match dictGet kv2 "correlation-id" with
        | none => .error (.bodyError "No correlation-id specified")
        | some c =>
          if c.length = 0 then .error (.bodyError "No correlation-id specified")
          else .ok kv2

/-- `src/ingest-lambda/ingest_lambda.py`, `_body_to_dict` (the legacy parser):
identical to the service parser except that it additionally rejects a
`correlation-id` longer than `__CORRELATION_CHARWIDTH__` (60) characters. -/
def legacy_body_to_dict (body : String) : Except PyExc (List (String × String)) :=
  let kv := parse_key_values body
  match dictGet kv "dataset-id" with
  | none => .error (.bodyError "No dataset-id specified")
  | some d =>
    if d.length = 0 then .error (.bodyError "No dataset-id specified")
    else if (dictGet kv "timestamp-ns").isNone ∧ (dictGet kv "timestamp-ms").isNone then
      .error (.bodyError "No timestamp specified")
    else
      match timestampValues kv with
      | .error e => .error e
      | .ok (ns, ms) =>
        let kv2 := dictInsert (dictInsert kv "timestamp-ns" (toString ns)) "timestamp-ms" (toString ms)
        match dictGet kv2 "correlation-id" with
        | none => .error (.bodyError "No correlation-id specified")
        | some c =>
          if c.length = 0 then .error (.bodyError "No correlation-id specified")
          else if CORRELATION_CHARWIDTH < c.length then
            .error (.bodyError "Specified correlation-id is too long")
          else .ok kv2

/-- `timestamp-ms` value the service parser stores for a body. -/
def svcParsedMs (body : String) : Option String :=
  (svc_body_to_dict body).toOption.bind (fun kv => dictGet kv "timestamp-ms")

/-- `timestamp-ns` value the service parser stores for a body. -/
def svcParsedNs (body : String) : Option String :=
  (svc_body_to_dict body).toOption.bind (fun kv => dictGet kv "timestamp-ns")

example : svcParsedNs "dataset-id=D\ncorrelation-id=c\ntimestamp-ns=1699999999999999999" =
    some "1699999999999999999" := by decide
example : svcParsedMs "dataset-id=D\ncorrelation-id=c\ntimestamp-ns=1699999999999999999" =
    some "1700000000000" := by decide
example : svcParsedMs "dataset-id=D\ncorrelation-id=c\ntimestamp-ms=1234" = some "1234" := by decide
example : svcParsedNs "dataset-id=D\ncorrelation-id=c\ntimestamp-ms=1234" = some "1234000000" := by decide
example : (svc_body_to_dict "dataset-id=D\ncorrelation-id=aaaaaaaaaaaaaaaaaaaaaaaaaaaaaaaaaaaaaaaaaaaaaaaaaaaaaaaaaaaaa\ntimestamp-ns=1").isOk = true := by decide
example : legacy_body_to_dict "dataset-id=D\ncorrelation-id=aaaaaaaaaaaaaaaaaaaaaaaaaaaaaaaaaaaaaaaaaaaaaaaaaaaaaaaaaaaaa\ntimestamp-ns=1" =
    .error (.bodyError "Specified correlation-id is too long") := by decide
example : svc_body_to_dict "dataset-id=D\ntimestamp-ns=abc" = .error .valueError := by decide

/-! ### Filesystem lease paths and release (`src/libs/serverless_otel/nfs_mutex/mutex.py`) -/

/-- First character test (kernel-computable `startswith('/')`). -/
def headIsSlash (s : String) : Bool :=
  match s.data with
  | '/' :: _ => true
  | _ => false

/-- Last character test (kernel-computable `endswith('/')`). -/
def lastIsSlash (s : String) : Bool :=
  match s.data.getLast? with
  | some '/' => true
  | _ => false

/-- `os.path.join(a, b)` for POSIX paths. -/
def pyPathJoin (a b : String) : String :=
  if headIsSlash b then b
  else if a = "" ∨ lastIsSlash a then a ++ b
  else a ++ "/" ++ b

/-- `LOCK_DIRECTORY` constant. -/
def LOCK_DIRECTORY : String := ".locks"

/-- `_get_segment_lockdir(basedir, segment)`. -/
def get_segment_lockdir (basedir segment : String) : String :=
  pyPathJoin (pyPathJoin basedir segment) LOCK_DIRECTORY

/-- `_get_segment_lockfile(basedir, segment)`. -/
def get_segment_lockfile (basedir segment : String) : String :=
  pyPathJoin (get_segment_lockdir basedir segment) (segment ++ ".lck")

/-- `_get_instance_lockfile(basedir, segment, instance)`. -/
def get_instance_lockfile (basedir segment inst : String) : String :=
  pyPathJoin (get_segment_lockdir basedir segment) (inst ++ ".lck")

/-- `NfsLockIdentifier = namedtuple('NfsLockIdentifier', ['lockfile', 'timestamp'])`. -/
structure NfsLockIdentifier where
  lockfile : String
  timestamp : Int
deriving Repr, DecidableEq

/-- `nfs_unlock_segment(basedir, dataset_id, segment, instance, lock)`.
The filesystem substrate is passed in explicitly:
`readlinkTarget` is the current target of the segment-lock symlink (`none`
models a missing symlink, for which `os.readlink` raises a bare `OSError` /
`FileNotFoundError` — the source performs that call outside any `try`), and
`unlinkOk` is the outcome of the final `os.unlink`.  `.ok ()` means every
check passed and the symlink was unlinked. -/
def nfs_unlock_segment (basedir dataset_id segment inst : String)
    (lock : Option NfsLockIdentifier) (readlinkTarget : Option String) (unlinkOk : Bool) :
    Except PyExc Unit :=
  match lock with
  | none => .error (.segmentUnlockError "Cannot unlock segment, no lock held.")
  | some l =>
    let dataset_base := pyPathJoin basedir dataset_id
    let instance_lockfile := get_instance_lockfile dataset_base segment inst
    let segment_lockfile := get_segment_lockfile dataset_base segment
    if l.lockfile ≠ instance_lockfile then
      .error (.segmentUnlockError
        ("Cannot unlock segment " ++ segment_lockfile ++ ", it is owned by " ++ l.lockfile))
    else
      match readlinkTarget with
      | none => .error .osError
      | some current_lock =>
        if current_lock ≠ instance_lockfile then
          .error (.segmentUnlockError
            ("Cannot unlock segment " ++ segment_lockfile ++ ", it is owned by " ++ current_lock))
        else if unlinkOk then .ok ()
        else .error (.segmentUnlockError "Cannot unlock segment, probably a deadlock.")

example :
    nfs_unlock_segment "/mnt" "D" "segment-0" "A" none (some "x") true =
      .error (.segmentUnlockError "Cannot unlock segment, no lock held.") := by decide
example :
    nfs_unlock_segment "/mnt" "D" "segment-0" "A"
      (some ⟨"/mnt/D/segment-0/.locks/A.lck", 1⟩) (some "/mnt/D/segment-0/.locks/A.lck") true =
      .ok () := by decide

/-! ### Column-file writer (`src/services/ingest_svc/lambda_function.py`) -/

/-- Minimal quoting of one field by Python's `csv.writer` (excel dialect,
`QUOTE_MINIMAL`): a field containing the delimiter, the quote character, CR or
LF is wrapped in double quotes with embedded quotes doubled. -/
def csvQuoteField (s : String) : String :=
  if s.data.any (fun c => c = ',' ∨ c = '"' ∨ c = '\r' ∨ c = '\n') then
    "\"" ++ String.mk (s.data.foldr (fun c acc => if c = '"' then '"' :: '"' :: acc else c :: acc) []) ++ "\""
  else s

/-- `_create_csv_string(correlation_id, timestamp, value)`: writes the row
`[timestamp, correlation_id, value]` through `csv.writer`, whose excel dialect
terminates the row with CRLF. -/
def create_csv_string (correlation_id timestamp value : String) : String :=
  csvQuoteField timestamp ++ "," ++ csvQuoteField correlation_id ++ "," ++ csvQuoteField value ++ "\r\n"

/-- `_append_record(...)` computes `line = FORMAT_SEGMENT_LINE(timestamp,
correlation_id, value)` — note the call site passes `timestamp` into
`_create_csv_string`'s `correlation_id` parameter and vice versa — and appends
`f'{line}\n'` to the column file.  This is the exact text appended. -/
def append_record_line (timestamp correlation_id value : String) : String :=
  create_csv_string timestamp correlation_id value ++ "\n"

example : append_record_line "1700000000000000000" "abc" "7" =
    "abc,1700000000000000000,7\r\n\n" := by decide
example : create_csv_string "a,b" "t" "v" = "t,\"a,b\",v\r\n" := by decide

/-! ### Handler orchestrator (`src/services/ingest_svc/lambda_function.py`) -/

/-- Default of `SEGMENT_BUCKET_SIZE_MINUTES` (env default `'15'`).  Note the
handler does not actually pass it to `make_segment_identifier`, which therefore
always uses its own default of 15. -/
def SEGMENT_BUCKET_SIZE_MINUTES : Nat := 15

/-- `_lambda_handler_sqlite` under the default configuration
(`USE_SQLITE_STORAGE = True`, `USE_FILESYSTEM_MUTEX = True`,
`USE_S3_MUTEX = False`).  The substrate is passed in explicitly: `lockRes` is
the outcome of `nfs_lock_segment`, `writeRes` the outcome of the
connect/pragma/insert/commit block (the connection variable `con` is assigned
before anything in that block can raise), and `readlinkTarget` / `unlinkOk`
feed the `nfs_unlock_segment` call in the `finally` block.  The `finally`
block swallows release errors caught by `except SegmentLockError` and then
runs `con.close()`, which raises `AttributeError` when `con` is still `None`. -/
def lambda_handler_sqlite (basedir dataset_id segment inst : String)
    (lockRes : Except PyExc NfsLockIdentifier) (writeRes : Except PyExc Unit)
    (readlinkTarget : Option String) (unlinkOk : Bool) : Except PyExc Nat :=
  let tryOut : Except PyExc Nat × Option NfsLockIdentifier × Bool :=
    match lockRes with
    | .error e => (.error e, none, false)
    | .ok l =>
      match writeRes with
      | .error e => (.error e, some l, true)
      | .ok _ => (.ok 201, some l, true)
  let afterExcept : Except PyExc Nat :=
    match tryOut.1 with
    | .ok n => .ok n
    | .error (.bodyError _) => .ok 400
    | .error e => if catchesSegmentLockError e then .ok 500 else .error e
  let closeStep : Except PyExc Nat :=
    if tryOut.2.2 then afterExcept else .error .attributeError
  match nfs_unlock_segment basedir dataset_id segment inst tryOut.2.1 readlinkTarget unlinkOk with
  | .ok _ => closeStep
  | .error e => if catchesSegmentLockError e then closeStep else .error e

/-- `lambda_handler`: parse the body (outside any `try`, so parser exceptions
propagate to the caller), read `dataset-id`, derive the segment id from the
record's own `timestamp-ns`, and dispatch to the sqlite handler (default
configuration). -/
def lambda_handler (body : String) (basedir inst : String)
    (lockRes : Except PyExc NfsLockIdentifier) (writeRes : Except PyExc Unit)
    (readlinkTarget : Option String) (unlinkOk : Bool) : Except PyExc Nat :=
  match svc_body_to_dict body with
  | .error e => .error e
  | .ok kv =>
    let dataset_id := (dictGet kv "dataset-id").getD ""
    let ns := ((dictGet kv "timestamp-ns").bind pyInt).getD 0
    let segment_id := make_segment_identifier ns DEFAULT_SEGMENT_SIZE_MINS
    lambda_handler_sqlite basedir dataset_id segment_id inst lockRes writeRes readlinkTarget unlinkOk

example :
    lambda_handler "timestamp-ns=1\ncorrelation-id=c" "/mnt" "A"
      (.ok ⟨"x", 0⟩) (.ok ()) (some "x") true =
      .error (.bodyError "No dataset-id specified") := by decide
example :
    lambda_handler "dataset-id=D\ntimestamp-ns=1\ncorrelation-id=c" "/mnt" "A"
      (.error (.segmentLockError "timed out")) (.ok ()) none true =
      .error .attributeError := by decide

/-! ### Object-store lease acquisition (`src/libs/serverless_otel/s3_mutex/mutex.py`) -/

/-- Outcome of one conditional `put_object` call: success with the
server-returned ETag, a `ClientError` carrying an HTTP status code, or some
other exception. -/
inductive PutOutcome where
  | success (etag : String)
  | clientError (status : Nat)
  | otherError
deriving Repr, DecidableEq

/-- Observable actions of the acquire loop.  `sleepSec` would model a
`time.sleep` call; the object-store loop in the sources never performs one
(unlike the filesystem loop). -/
inductive S3Action where
  | putAttempt
  | sleepSec (n : Nat)
deriving Repr, DecidableEq

/-- Default `timeout` parameter of `s3_lock_segment`. -/
def S3_DEFAULT_TIMEOUT : Nat := 300

/-- Default `delay` parameter of `s3_lock_segment`. -/
def S3_DEFAULT_DELAY : Nat := 5

/-- `S3LockIdentifier = namedtuple('S3LockIdentifier', ['ETag', 'Timestamp'])`. -/
structure S3LockIdentifier where
  ETag : String
  Timestamp : Int
deriving Repr, DecidableEq

/-- Python `str.strip('"')`: remove all leading and trailing `"` characters. -/
def stripQuotes (s : String) : String :=
  String.mk (((s.data.dropWhile (fun c => c = '"')).reverse.dropWhile (fun c => c = '"')).reverse)

/-- The `while (utc_nanos() - start) < (timeout * NS_PER_S)` loop of
`s3_lock_segment`.  `clock n` is the value of the n-th `utc_nanos()` call
(`clock 0` is `start`); `puts n` the outcome of the n-th `put_object`; `c` and
`p` the next clock / put indices; `acts` the reversed trace so far.  `fuel`
only bounds the unrolling (the Python loop can spin as long as the clock stays
under the deadline); exhausting it yields a marker error no theorem relies on.
On a 409/412 `ClientError` the source falls through the `except` clause and
re-enters the loop immediately — there is no `time.sleep` on that path. -/
def s3LockRun (clock : Nat → Int) (puts : Nat → PutOutcome) (timeout delay : Nat)
    (segment : String) :
    Nat → Nat → Nat → List S3Action → List S3Action × Except PyExc S3LockIdentifier
  | 0, _, _, acts => (acts.reverse, .error (.segmentLockError "model out of fuel"))
  | fuel + 1, c, p, acts =>
    if clock c - clock 0 < ((timeout * NS_PER_S : Nat) : Int) then
      match puts p with
      | .success etag =>
        ((S3Action.putAttempt :: acts).reverse, .ok ⟨stripQuotes etag, clock (c + 1)⟩)
      | .clientError status =>
        if status = 409 ∨ status = 412 then
          s3LockRun clock puts timeout delay segment fuel (c + 1) (p + 1)
            (S3Action.putAttempt :: acts)
        else
          ((S3Action.putAttempt :: acts).reverse,
            .error (.segmentLockError "Cannot acquire lock, communication error."))
      | .otherError =>
        ((S3Action.putAttempt :: acts).reverse,
          .error (.segmentLockError "Cannot acquire lock, unexpected error."))
    else
      (acts.reverse,
        .error (.segmentLockError
          ("Cannot acquire lock, timeout after " ++ toString timeout ++ " seconds. " ++ segment)))

/-- `s3_lock_segment(dataset_id, segment, instance, utc_nanos, timeout, delay)`
with the substrate passed in as oracles and an unrolling bound. -/
def s3_lock_segment (dataset_id segment inst : String) (clock : Nat → Int)
    (puts : Nat → PutOutcome) (timeout delay fuel : Nat) :
    List S3Action × Except PyExc S3LockIdentifier :=
  s3LockRun clock puts timeout delay segment fuel 1 0 []

example :
    (s3_lock_segment "D" "segment-0" "A" (fun _ => 0)
      (fun p => if p = 0 then .clientError 409 else .success "\"abc\"")
      S3_DEFAULT_TIMEOUT S3_DEFAULT_DELAY 3).1 = [.putAttempt, .putAttempt] := by decide
example :
    (s3_lock_segment "D" "segment-0" "A" (fun _ => 0)
      (fun p => if p = 0 then .clientError 409 else .success "\"abc\"")
      S3_DEFAULT_TIMEOUT S3_DEFAULT_DELAY 3).2 = .ok ⟨"abc", 0⟩ := by decide
example :
    (s3_lock_segment "D" "segment-0" "A" (fun _ => 0) (fun _ => .clientError 503)
      S3_DEFAULT_TIMEOUT S3_DEFAULT_DELAY 3).2 =
      .error (.segmentLockError "Cannot acquire lock, communication error.") := by decide
example :
    (s3_lock_segment "D" "segment-0" "A" (fun c => if c = 0 then 0 else 300 * 1000000000)
      (fun _ => .clientError 409) S3_DEFAULT_TIMEOUT S3_DEFAULT_DELAY 3).2 =
      .error (.segmentLockError "Cannot acquire lock, timeout after 300 seconds. segment-0") := by
  decide

/-! ### Lease transition systems for the mutual-exclusion invariant

One atomic substrate step per symlink creation, symlink unlink, conditional
PUT or conditional DELETE, interleaved across any number of handler
instances.  Handles are issued by successful acquisitions and each handle's
release is attempted at most once (a handler releases the handle of its own
acquisition exactly once, in its cleanup block); failed attempts do not
change the substrate and are therefore identity steps, omitted. -/

/-- The sentinel path `<base>/<dataset>/<segment>/.locks/<instance>.lck` that
`nfs_lock_segment` links the segment lock to and stores in the handle. -/
def nfsSentinel (base ds seg inst : String) : String :=
  get_instance_lockfile (pyPathJoin base ds) seg inst

/-- One issued filesystem lease handle: the acquiring instance, the handle's
`lockfile` field, and whether its release has succeeded. -/
structure NfsEntry where
  inst : String
  lockfile : String
  released : Bool
deriving Repr, DecidableEq

/-- Shared filesystem state for one fixed `(dataset, segment)`: the segment
lock symlink's current target (if it exists) plus all issued handles. -/
structure NfsState where
  symlink : Option String
  entries : List NfsEntry
deriving Repr, DecidableEq

/-- No symlink, no handles. -/
def nfsInit : NfsState := ⟨none, []⟩

/-- `nfs_unlock_segment` run by `e.inst` with handle `e` against symlink state
`link` would succeed (all checks pass and the unlink is performed). -/
def nfsReleaseOk (base ds seg : String) (link : Option String) (e : NfsEntry) : Bool :=
  nfs_unlock_segment base ds seg e.inst (some ⟨e.lockfile, 0⟩) link true = .ok ()

/-- Atomic steps of the filesystem lease substrate.
`acquire`: `os.symlink(instance_lockfile, segment_lockfile)` succeeds exactly
when the segment lock symlink does not exist; the handle records the instance
lockfile.  `release`: a not-yet-released handle whose `nfs_unlock_segment`
checks pass unlinks the symlink.  Failed acquisitions (EEXIST, timeout) and
failed releases leave the substrate unchanged and add no transition. -/
inductive NfsStep (base ds seg : String) : NfsState → NfsState → Prop
  | acquire (s : NfsState) (inst : String) :
      s.symlink = none →
      NfsStep base ds seg s
        ⟨some (nfsSentinel base ds seg inst),
         s.entries ++ [⟨inst, nfsSentinel base ds seg inst, false⟩]⟩
  | release (s : NfsState) (i : Nat) (e : NfsEntry) :
      s.entries.get? i = some e →
      e.released = false →
      nfsReleaseOk base ds seg s.symlink e = true →
      NfsStep base ds seg s ⟨none, s.entries.set i { e with released := true }⟩

/-- States reachable from the empty substrate by interleaved handler steps. -/
inductive NfsReachable (base ds seg : String) : NfsState → Prop
  | init : NfsReachable base ds seg nfsInit
  | step {s t : NfsState} : NfsReachable base ds seg s → NfsStep base ds seg s t →
      NfsReachable base ds seg t

/-- Unreleased handles of a filesystem state. -/
def nfsUnreleased (s : NfsState) : List NfsEntry :=
  s.entries.filter (fun e => !e.released)

/-- Number of unreleased handles whose release would currently succeed. -/
def nfsReleasableCount (base ds seg : String) (s : NfsState) : Nat :=
  ((nfsUnreleased s).filter (fun e => nfsReleaseOk base ds seg s.symlink e)).length

/-- One issued object-store lease handle: acquiring instance, the
server-assigned entity tag recorded in the handle, release status. -/
structure S3Entry where
  inst : String
  etag : Nat
  released : Bool
deriving Repr, DecidableEq

/-- Object-store state for one fixed `(dataset, segment)` key: the entity tag
of the current lock object (if the object exists), a counter supplying the
next server-assigned tag (the server computes the tag over a body containing
the acquirer's instance id and a fresh nanosecond timestamp, so tags of
distinct acquisitions are distinct), and all issued handles. -/
structure S3State where
  object : Option Nat
  nextEtag : Nat
  entries : List S3Entry
deriving Repr, DecidableEq

/-- No lock object, no handles. -/
def s3Init : S3State := ⟨none, 0, []⟩

/-- Atomic steps of the object-store lease substrate.
`acquire`: the `IfNoneMatch='*'` conditional PUT succeeds exactly when the
object does not exist, creating it with a fresh entity tag that becomes the
handle.  `release`: `s3_unlock_segment` HEADs the object with
`IfMatch=handle.ETag` — which succeeds exactly when the current object's tag
equals the handle's — and then deletes it.  Conflicting PUTs (409/412) and
failed releases leave the substrate unchanged. -/
inductive S3Step : S3State → S3State → Prop
  | acquire (s : S3State) (inst : String) :
      s.object = none →
      S3Step s ⟨some s.nextEtag, s.nextEtag + 1, s.entries ++ [⟨inst, s.nextEtag, false⟩]⟩
  | release (s : S3State) (i : Nat) (e : S3Entry) :
      s.entries.get? i = some e →
      e.released = false →
      s.object = some e.etag →
      S3Step s ⟨none, s.nextEtag, s.entries.set i { e with released := true }⟩

/-- States reachable from the empty object store. -/
inductive S3Reachable : S3State → Prop
  | init : S3Reachable s3Init
  | step {s t : S3State} : S3Reachable s → S3Step s t → S3Reachable t

/-- Unreleased handles of an object-store state. -/
def s3Unreleased (s : S3State) : List S3Entry :=
  s.entries.filter (fun e => !e.released)

/-- Number of unreleased handles whose release would currently succeed
(the `IfMatch` HEAD check passes). -/
def s3ReleasableCount (s : S3State) : Nat :=
  ((s3Unreleased s).filter (fun e => s.object = some e.etag)).length

/-! ### Proof of the at-most-one-holder invariant -/

lemma filter_set_nil {α : Type} (p : α → Bool) :
    ∀ (l : List α) (i : Nat) (a b : α), l.get? i = some a → p a = true → p b = false →
      l.filter p = [a] → (l.set i b).filter p = [] := by
  intro l
  induction l with
  | nil => intro i a b hget _ _ _; simp at hget
  | cons x xs ih =>
    intro i a b hget hpa hpb hl
    cases i with
    | zero =>
      have hx : x = a := by simpa using hget
      subst hx
      rw [List.filter_cons, if_pos hpa] at hl
      have hxs : xs.filter p = [] := by simpa using hl
      simpa [List.set, List.filter_cons, hpb] using hxs
    | succ j =>
      have hget' : xs.get? j = some a := by simpa using hget
      by_cases hx : p x = true
      · rw [List.filter_cons, if_pos hx] at hl
        have hxa : x = a ∧ xs.filter p = [] := by
          constructor
          · exact (List.cons_eq_cons.mp hl).1
          · exact (List.cons_eq_cons.mp hl).2
        have hmem : a ∈ xs := List.get?_mem hget'
        have : a ∈ xs.filter p := List.mem_filter.mpr ⟨hmem, hpa⟩
        rw [hxa.2] at this
        simp at this
      · have hx' : p x = false := by simpa using hx
        rw [List.filter_cons, if_neg (by simp [hx'])] at hl
        have := ih j a b hget' hpa hpb hl
        simp [List.set, List.filter_cons, hx', this]

/-- `nfs_unlock_segment` succeeds for a handle exactly when the handle's
`lockfile` is the caller's own sentinel and the symlink currently points to it. -/
lemma nfsReleaseOk_iff (base ds seg : String) (link : Option String) (e : NfsEntry) :
    nfsReleaseOk base ds seg link e = true ↔
      (e.lockfile = nfsSentinel base ds seg e.inst ∧ link = some e.lockfile) := by
  unfold nfsReleaseOk nfs_unlock_segment nfsSentinel
  by_cases h1 : e.lockfile = get_instance_lockfile (pyPathJoin base ds) seg e.inst
  · cases link with
    | none => simp [h1]
    | some cur =>
      by_cases h2 : cur = get_instance_lockfile (pyPathJoin base ds) seg e.inst
      · simp [h1, h2]
      · simp [h1, h2]
  · cases link <;> simp [h1]

/-- Inductive invariant of the filesystem lease substrate: either no symlink
exists and every issued handle is released, or exactly one handle is
unreleased and the symlink points at its lockfile. -/
def NfsInv (s : NfsState) : Prop :=
  (s.symlink = none ∧ nfsUnreleased s = [])
  ∨ (∃ e : NfsEntry, nfsUnreleased s = [e] ∧ s.symlink = some e.lockfile)

lemma nfsInv_init : NfsInv nfsInit := by
  left; constructor <;> rfl

lemma nfsInv_step {base ds seg : String} {s t : NfsState} (hinv : NfsInv s)
    (hstep : NfsStep base ds seg s t) : NfsInv t := by
  cases hstep with
  | acquire inst hnone =>
    have hemp : nfsUnreleased s = [] := by
      rcases hinv with ⟨_, h⟩ | ⟨e, _, hlink⟩
      · exact h
      · rw [hnone] at hlink; cases hlink
    right
    refine ⟨⟨inst, nfsSentinel base ds seg inst, false⟩, ?_, rfl⟩
    unfold nfsUnreleased at hemp ⊢
    simp only [List.filter_append, hemp]
    simp
  | release i e hget hrel hok =>
    have hlink : s.symlink = some e.lockfile := ((nfsReleaseOk_iff _ _ _ _ _).mp hok).2
    rcases hinv with ⟨_, hemp⟩ | ⟨e', hone, hlink'⟩
    · exfalso
      have hmem : e ∈ s.entries := List.get?_mem hget
      have : e ∈ nfsUnreleased s := List.mem_filter.mpr ⟨hmem, by simp [hrel]⟩
      rw [hemp] at this
      simp at this
    · left
      refine ⟨rfl, ?_⟩
      have hmem : e ∈ s.entries := List.get?_mem hget
      have hin : e ∈ nfsUnreleased s := List.mem_filter.mpr ⟨hmem, by simp [hrel]⟩
      rw [hone] at hin
      have he : e = e' := by simpa using hin
      subst he
      unfold nfsUnreleased at hone ⊢
      exact filter_set_nil _ s.entries i e _ hget (by simp [hrel]) (by simp) hone

lemma nfsInv_reachable {base ds seg : String} {s : NfsState}
    (h : NfsReachable base ds seg s) : NfsInv s := by
  induction h with
  | init => exact nfsInv_init
  | step _ hstep ih => exact nfsInv_step ih hstep

/-- Inductive invariant of the object-store lease substrate. -/
def S3Inv (s : S3State) : Prop :=
  (s.object = none ∧ s3Unreleased s = [])
  ∨ (∃ e : S3Entry, s3Unreleased s = [e] ∧ s.object = some e.etag)

lemma s3Inv_init : S3Inv s3Init := by
  left; constructor <;> rfl

lemma s3Inv_step {s t : S3State} (hinv : S3Inv s) (hstep : S3Step s t) : S3Inv t := by
  cases hstep with
  | acquire inst hnone =>
    have hemp : s3Unreleased s = [] := by
      rcases hinv with ⟨_, h⟩ | ⟨e, _, hobj⟩
      · exact h
      · rw [hnone] at hobj; cases hobj
    right
    refine ⟨⟨inst, s.nextEtag, false⟩, ?_, rfl⟩
    unfold s3Unreleased at hemp ⊢
    simp only [List.filter_append, hemp]
    simp
  | release i e hget hrel hobj =>
    rcases hinv with ⟨_, hemp⟩ | ⟨e', hone, hobj'⟩
    · exfalso
      have hmem : e ∈ s.entries := List.get?_mem hget
      have : e ∈ s3Unreleased s := List.mem_filter.mpr ⟨hmem, by simp [hrel]⟩
      rw [hemp] at this
      simp at this
    · left
      refine ⟨rfl, ?_⟩
      have hmem : e ∈ s.entries := List.get?_mem hget
      have hin : e ∈ s3Unreleased s := List.mem_filter.mpr ⟨hmem, by simp [hrel]⟩
      rw [hone] at hin
      have he : e = e' := by simpa using hin
      subst he
      unfold s3Unreleased at hone ⊢
      exact filter_set_nil _ s.entries i e _ hget (by simp [hrel]) (by simp) hone

lemma s3Inv_reachable {s : S3State} (h : S3Reachable s) : S3Inv s := by
  induction h with
  | init => exact s3Inv_init
  | step _ hstep ih => exact s3Inv_step ih hstep

/-! ### Helper lemmas -/

lemma find?_map_overwrite (m : List (String × String)) (k v k' : String) (h : k' ≠ k) :
    (m.map (fun p => if p.1 = k then (k, v) else p)).find? (fun p => p.1 = k') =
      m.find? (fun p => p.1 = k') := by
  induction m with
  | nil => rfl
  | cons q qs ih =>
    by_cases hq : q.1 = k
    · have hd1 : decide (((k, v) : String × String).1 = k') = false := by
        simp [Ne.symm h]
      have hd2 : decide (q.1 = k') = false := by
        simp [hq, Ne.symm h]
      simp only [List.map_cons, List.find?_cons, if_pos hq, hd1, hd2, ih]
    · by_cases hq' : q.1 = k'
      · have hd : decide (q.1 = k') = true := by simp [hq']
        simp only [List.map_cons, List.find?_cons, if_neg hq, hd]
      · have hd : decide (q.1 = k') = false := by simp [hq']
        simp only [List.map_cons, List.find?_cons, if_neg hq, hd, ih]

lemma dictGet_insert_ne (m : List (String × String)) (k v k' : String) (h : k' ≠ k) :
    dictGet (dictInsert m k v) k' = dictGet m k' := by
  unfold dictInsert dictGet
  cases hany : m.any (fun p => p.1 = k) with
  | true => simp only [if_true, find?_map_overwrite m k v k' h]
  | false =>
    simp only [Bool.false_eq_true, if_false]
    rw [List.find?_append]
    have hnil : ([(k, v)] : List (String × String)).find? (fun p => p.1 = k') = none := by
      simp [Ne.symm h]
    simp [hnil]

lemma string_append_right_cancel {a b c : String} (h : a ++ c = b ++ c) : a = b := by
  have hd : a.data ++ c.data = b.data ++ c.data := by
    have h2 := congrArg String.data h
    simpa [String.data_append] using h2
  have h3 : a.data = b.data := List.append_cancel_right hd
  cases a; cases b
  exact congrArg String.mk h3

lemma string_append_left_cancel {a b c : String} (h : c ++ a = c ++ b) : a = b := by
  have hd : c.data ++ a.data = c.data ++ b.data := by
    have h2 := congrArg String.data h
    simpa [String.data_append] using h2
  have h3 : a.data = b.data := List.append_cancel_left hd
  cases a; cases b
  exact congrArg String.mk h3

lemma pyPathJoin_inj_right (D x y : String)
    (hx : headIsSlash x = false) (hy : headIsSlash y = false)
    (hxy : pyPathJoin D x = pyPathJoin D y) : x = y := by
  unfold pyPathJoin at hxy
  rw [hx, hy] at hxy
  simp only [Bool.false_eq_true, if_false] at hxy
  by_cases hD : D = "" ∨ lastIsSlash D = true
  · rw [if_pos hD, if_pos hD] at hxy
    exact string_append_left_cancel hxy
  · rw [if_neg hD, if_neg hD] at hxy
    have h3 : (D ++ "/") ++ x = (D ++ "/") ++ y := by
      simpa [String.append_assoc] using hxy
    exact string_append_left_cancel h3

/-- For instance ids whose sentinel filename is not an absolute path (instance
ids in the sources are `uuid4().hex`, so they contain no `/`), distinct
instances have distinct sentinel paths. -/
lemma nfsSentinel_inj (base ds seg i1 i2 : String)
    (h1 : headIsSlash (i1 ++ ".lck") = false) (h2 : headIsSlash (i2 ++ ".lck") = false)
    (hne : i1 ≠ i2) : nfsSentinel base ds seg i1 ≠ nfsSentinel base ds seg i2 := by
  intro heq
  unfold nfsSentinel get_instance_lockfile at heq
  have h3 := pyPathJoin_inj_right _ _ _ h1 h2 heq
  exact hne (string_append_right_cancel h3)

lemma s3LockRun_actions (clock : Nat → Int) (puts : Nat → PutOutcome)
    (timeout delay : Nat) (segment : String) :
    ∀ (fuel c p : Nat) (acts : List S3Action), (∀ a ∈ acts, a = S3Action.putAttempt) →
      ∀ a ∈ (s3LockRun clock puts timeout delay segment fuel c p acts).1,
        a = S3Action.putAttempt := by
  intro fuel
  induction fuel with
  | zero =>
    intro c p acts hacts a ha
    simp only [s3LockRun, List.mem_reverse] at ha
    exact hacts a ha
  | succ f ih =>
    intro c p acts hacts a ha
    have hacts' : ∀ a ∈ S3Action.putAttempt :: acts, a = S3Action.putAttempt := by
      intro a ha
      rcases List.mem_cons.mp ha with h | h
      · exact h
      · exact hacts a h
    simp only [s3LockRun] at ha
    by_cases hcond : clock c - clock 0 < ((timeout * NS_PER_S : Nat) : Int)
    · rw [if_pos hcond] at ha
      cases hput : puts p with
      | success etag =>
        rw [hput] at ha
        dsimp only at ha
        simp only [List.mem_reverse] at ha
        exact hacts' a ha
      | clientError status =>
        rw [hput] at ha
        dsimp only at ha
        by_cases hst : status = 409 ∨ status = 412
        · rw [if_pos hst] at ha
          exact ih (c + 1) (p + 1) _ hacts' a ha
        · rw [if_neg hst] at ha
          simp only [List.mem_reverse] at ha
          exact hacts' a ha
      | otherError =>
        rw [hput] at ha
        dsimp only at ha
        simp only [List.mem_reverse] at ha
        exact hacts' a ha
    · rw [if_neg hcond] at ha
      simp only [List.mem_reverse] at ha
      exact hacts a ha

/-! ### Claim theorems -/

/-- C1: for any fixed `(dataset-id, segment-id)`, in every state reachable by
interleaving the acquire and release steps of any number of handler instances
(each symlink creation, unlink, or conditional PUT one atomic substrate step),
at most one unreleased lease handle exists whose release would succeed — in
the filesystem-mutex substrate and in the object-store substrate. -/
theorem C1_at_most_one_releasable_handle (base ds seg : String) (s : NfsState)
    (hs : NfsReachable base ds seg s) (t : S3State) (ht : S3Reachable t) :
    nfsReleasableCount base ds seg s ≤ 1 ∧ s3ReleasableCount t ≤ 1 := by
  constructor
  · rcases nfsInv_reachable hs with ⟨_, hemp⟩ | ⟨e, hone, _⟩
    · unfold nfsReleasableCount
      rw [hemp]; simp
    · unfold nfsReleasableCount
      rw [hone]
      simpa using List.length_filter_le (fun e => nfsReleaseOk base ds seg s.symlink e) [e]
  · rcases s3Inv_reachable ht with ⟨_, hemp⟩ | ⟨e, hone, _⟩
    · unfold s3ReleasableCount
      rw [hemp]; simp
    · unfold s3ReleasableCount
      rw [hone]
      simpa using List.length_filter_le (fun e2 => decide (t.object = some e2.etag)) [e]

/-- Witness for C1 at the initial (empty) substrate states. -/
theorem C1_at_most_one_releasable_handle_witness :
    nfsReleasableCount "/mnt/otel-hot/segments" "D" "segment-0" nfsInit ≤ 1 ∧
      s3ReleasableCount s3Init ≤ 1 :=
  C1_at_most_one_releasable_handle "/mnt/otel-hot/segments" "D" "segment-0"
    nfsInit NfsReachable.init s3Init S3Reachable.init

/-- C2 (code bug): `make_segment_identifier` computes the bucket with CPython
*float* division (`math.floor(t / D)` instead of `t // D`), so for the
timestamp `1700000099999999999` — the last nanosecond of the bucket starting
at `1699999200000000000` with the default 15-minute width — the code yields
`segment-1700000100000000000` while the claim's exact formula
`floor(t / (B·60·10⁹)) · (B·60·10⁹)` yields `1699999200000000000`; moreover
that timestamp and `1700000100000000000` lie in different exact buckets yet
receive the same identifier, refuting the claimed iff. -/
theorem C2_segment_identifier_float_divergence :
    make_segment_identifier 1700000099999999999 15 = "segment-1700000100000000000" ∧
    (1700000099999999999 : Nat) / (15 * NS_PER_MIN) * (15 * NS_PER_MIN) = 1699999200000000000 ∧
    make_segment_identifier 1700000099999999999 15 ≠
      "segment-" ++ toString ((1700000099999999999 : Nat) / (15 * NS_PER_MIN) * (15 * NS_PER_MIN)) ∧
    make_segment_identifier 1700000100000000000 15 = "segment-1700000100000000000" ∧
    (1700000099999999999 : Nat) / (15 * NS_PER_MIN) ≠
      (1700000100000000000 : Nat) / (15 * NS_PER_MIN) :=
  ⟨by decide, by decide, by decide, by decide, by decide⟩

/-- C3 (code bug): the parser derives `timestamp-ms` with CPython *float*
division (`math.floor(int(ns) / NS_PER_MS)`), so for
`timestamp-ns=1699999999999999999` it stores `timestamp-ms=1700000000000`
although `floor(ns / 10⁶) = 1699999999999`. -/
theorem C3_timestamp_ms_float_divergence :
    svcParsedNs "dataset-id=D\ncorrelation-id=c\ntimestamp-ns=1699999999999999999" =
      some "1699999999999999999" ∧
    svcParsedMs "dataset-id=D\ncorrelation-id=c\ntimestamp-ns=1699999999999999999" =
      some "1700000000000" ∧
    (1699999999999999999 : Nat) / NS_PER_MS = 1699999999999 ∧
    svcParsedMs "dataset-id=D\ncorrelation-id=c\ntimestamp-ns=1699999999999999999" ≠
      some (toString ((1699999999999999999 : Nat) / NS_PER_MS)) :=
  ⟨by decide, by decide, by decide, by decide⟩

/-- C4 (code bug): the handler does not map errors to statuses as claimed.
The body is parsed *before* the `try` of `_lambda_handler_sqlite`, so a
`BodyError` propagates to the caller instead of producing 400; when lease
acquisition fails, the `finally` block first swallows the
`SegmentUnlockError` of the `nfs_unlock_segment(.., lock=None)` call and then
executes `con.close()` with `con = None`, raising `AttributeError` instead of
returning 500; and a write (sqlite) error is caught by no `except` clause and
propagates instead of producing 500.  Only the 201-on-success half of the
claim holds. -/
theorem C4_handler_status_divergence :
    lambda_handler "timestamp-ns=1\ncorrelation-id=c" "/mnt" "A"
        (.ok ⟨"/mnt/D/segment-0/.locks/A.lck", 0⟩) (.ok ())
        (some "/mnt/D/segment-0/.locks/A.lck") true =
      .error (.bodyError "No dataset-id specified") ∧
    lambda_handler "dataset-id=D\ntimestamp-ns=1\ncorrelation-id=c" "/mnt" "A"
        (.error (.segmentLockError "timed out")) (.ok ()) none true =
      .error .attributeError ∧
    lambda_handler "dataset-id=D\ntimestamp-ns=1\ncorrelation-id=c" "/mnt" "A"
        (.ok ⟨"/mnt/D/segment-0/.locks/A.lck", 0⟩) (.error .sqliteError)
        (some "/mnt/D/segment-0/.locks/A.lck") true =
      .error .sqliteError ∧
    lambda_handler "dataset-id=D\ntimestamp-ns=1\ncorrelation-id=c" "/mnt" "A"
        (.ok ⟨"/mnt/D/segment-0/.locks/A.lck", 0⟩) (.ok ())
        (some "/mnt/D/segment-0/.locks/A.lck") true =
      .ok 201 :=
  ⟨by decide, by decide, by decide, by decide⟩

lemma nfs_unlock_no_lock (base ds seg inst : String) (readlinkTarget : Option String)
    (unlinkOk : Bool) :
    nfs_unlock_segment base ds seg inst none readlinkTarget unlinkOk =
      .error (.segmentUnlockError "Cannot unlock segment, no lock held.") := rfl

lemma nfs_unlock_wrong_handle (base ds seg inst : String) (l : NfsLockIdentifier)
    (readlinkTarget : Option String) (unlinkOk : Bool)
    (h : l.lockfile ≠ nfsSentinel base ds seg inst) :
    nfs_unlock_segment base ds seg inst (some l) readlinkTarget unlinkOk =
      .error (.segmentUnlockError ("Cannot unlock segment " ++
        get_segment_lockfile (pyPathJoin base ds) seg ++ ", it is owned by " ++ l.lockfile)) := by
  unfold nfsSentinel at h
  simp only [nfs_unlock_segment]
  rw [if_pos h]

lemma nfs_unlock_lost_ownership (base ds seg inst : String) (l : NfsLockIdentifier)
    (cur : String) (unlinkOk : Bool)
    (hl : l.lockfile = nfsSentinel base ds seg inst) (hcur : cur ≠ nfsSentinel base ds seg inst) :
    nfs_unlock_segment base ds seg inst (some l) (some cur) unlinkOk =
      .error (.segmentUnlockError ("Cannot unlock segment " ++
        get_segment_lockfile (pyPathJoin base ds) seg ++ ", it is owned by " ++ cur)) := by
  unfold nfsSentinel at hl hcur
  simp only [nfs_unlock_segment]
  rw [if_neg (by simp [hl]), if_pos hcur]

lemma nfs_unlock_ok_inv (base ds seg inst : String) (lock : Option NfsLockIdentifier)
    (readlinkTarget : Option String) (unlinkOk : Bool) (u : Unit)
    (h : nfs_unlock_segment base ds seg inst lock readlinkTarget unlinkOk = .ok u) :
    ∃ l, lock = some l ∧ l.lockfile = nfsSentinel base ds seg inst ∧
      readlinkTarget = some (nfsSentinel base ds seg inst) := by
  cases hlk : lock with
  | none => rw [hlk] at h; simp [nfs_unlock_segment] at h
  | some l =>
    rw [hlk] at h
    simp only [nfs_unlock_segment] at h
    by_cases h1 : l.lockfile ≠ get_instance_lockfile (pyPathJoin base ds) seg inst
    · rw [if_pos h1] at h; simp at h
    · rw [if_neg h1] at h
      push_neg at h1
      cases hrl : readlinkTarget with
      | none => rw [hrl] at h; simp at h
      | some cur =>
        rw [hrl] at h
        dsimp only at h
        by_cases h2 : cur ≠ get_instance_lockfile (pyPathJoin base ds) seg inst
        · rw [if_pos h2] at h; simp at h
        · push_neg at h2
          exact ⟨l, rfl, by rw [nfsSentinel]; exact h1, by rw [nfsSentinel]; exact congrArg some h2⟩

/-- C5 counterexample: a handle from instance A's *first* acquisition
(timestamp 1) is released successfully while the symlink belongs to A's
*second* acquisition (whose handle carries timestamp 2): the handle content
checked by `nfs_unlock_segment` is only the lockfile path, which is identical
across acquisitions by the same instance, so a release with a handle from a
different acquisition does not always fail. -/
theorem C5_counterexample_stale_same_instance_release :
    nfs_unlock_segment "/mnt" "D" "segment-0" "A"
        (some ⟨"/mnt/D/segment-0/.locks/A.lck", 1⟩)
        (some "/mnt/D/segment-0/.locks/A.lck") true = .ok () ∧
    (⟨"/mnt/D/segment-0/.locks/A.lck", 1⟩ : NfsLockIdentifier) ≠
      ⟨"/mnt/D/segment-0/.locks/A.lck", 2⟩ :=
  ⟨by decide, by decide⟩

/-- C5 (amended): the filesystem release fails with `SegmentUnlockError` when
the handle is absent, when the handle's `lockfile` differs from the caller's
own sentinel, and when the symlink's current target differs from that
sentinel; the unlink happens only when every check passes.  Consequently a
handle from a *different instance's* acquisition always fails (instance ids
containing no `/`, as the sources' `uuid4().hex` ids do); a stale handle from
an earlier acquisition of the *same* instance, however, passes every check. -/
theorem C5_release_validation (base ds seg inst : String) (lock : Option NfsLockIdentifier)
    (readlinkTarget : Option String) (unlinkOk : Bool) :
    (lock = none →
      nfs_unlock_segment base ds seg inst lock readlinkTarget unlinkOk =
        .error (.segmentUnlockError "Cannot unlock segment, no lock held.")) ∧
    (∀ l, lock = some l → l.lockfile ≠ nfsSentinel base ds seg inst →
      nfs_unlock_segment base ds seg inst lock readlinkTarget unlinkOk =
        .error (.segmentUnlockError ("Cannot unlock segment " ++
          get_segment_lockfile (pyPathJoin base ds) seg ++ ", it is owned by " ++ l.lockfile))) ∧
    (∀ l cur, lock = some l → l.lockfile = nfsSentinel base ds seg inst →
      readlinkTarget = some cur → cur ≠ nfsSentinel base ds seg inst →
      nfs_unlock_segment base ds seg inst lock readlinkTarget unlinkOk =
        .error (.segmentUnlockError ("Cannot unlock segment " ++
          get_segment_lockfile (pyPathJoin base ds) seg ++ ", it is owned by " ++ cur))) ∧
    (∀ u, nfs_unlock_segment base ds seg inst lock readlinkTarget unlinkOk = .ok u →
      ∃ l, lock = some l ∧ l.lockfile = nfsSentinel base ds seg inst ∧
        readlinkTarget = some (nfsSentinel base ds seg inst)) ∧
    (∀ l i2, lock = some l → l.lockfile = nfsSentinel base ds seg i2 →
      headIsSlash (inst ++ ".lck") = false → headIsSlash (i2 ++ ".lck") = false → i2 ≠ inst →
      nfs_unlock_segment base ds seg inst lock readlinkTarget unlinkOk ≠ .ok ()) := by
  refine ⟨?_, ?_, ?_, ?_, ?_⟩
  · intro h; subst h; exact nfs_unlock_no_lock base ds seg inst readlinkTarget unlinkOk
  · intro l hl hne; subst hl; exact nfs_unlock_wrong_handle base ds seg inst l _ _ hne
  · intro l cur hl hlf hrl hne; subst hl; subst hrl
    exact nfs_unlock_lost_ownership base ds seg inst l cur unlinkOk hlf hne
  · intro u h; exact nfs_unlock_ok_inv base ds seg inst lock readlinkTarget unlinkOk u h
  · intro l i2 hl hlf hs1 hs2 hne hok
    have hne' : l.lockfile ≠ nfsSentinel base ds seg inst := by
      rw [hlf]; exact nfsSentinel_inj base ds seg i2 inst hs2 hs1 hne
    subst hl
    rw [nfs_unlock_wrong_handle base ds seg inst l readlinkTarget unlinkOk hne'] at hok
    simp at hok

/-- Witness for C5 (amended): instance B releasing with a handle that points
at A's sentinel fails; a matching handle over a matching symlink succeeds. -/
theorem C5_release_validation_witness :
    nfs_unlock_segment "/mnt" "D" "segment-0" "B"
        (some ⟨"/mnt/D/segment-0/.locks/A.lck", 7⟩)
        (some "/mnt/D/segment-0/.locks/A.lck") true ≠ .ok () :=
  (C5_release_validation "/mnt" "D" "segment-0" "B"
      (some ⟨"/mnt/D/segment-0/.locks/A.lck", 7⟩)
      (some "/mnt/D/segment-0/.locks/A.lck") true).2.2.2.2
    ⟨"/mnt/D/segment-0/.locks/A.lck", 7⟩ "A" rfl (by decide) (by decide) (by decide) (by decide)

/-- C6: when lease acquisition and the write both succeed, a
`SegmentUnlockError` raised by `nfs_unlock_segment` in the `finally` block is
swallowed (logged) there — `errors.py` being absent from the sources, the
spec's "logged, not surfaced" fixes that `except SegmentLockError` catches it —
and the handler still returns 201. -/
theorem C6_release_error_logged_not_surfaced (basedir dataset_id segment inst : String)
    (l : NfsLockIdentifier) (readlinkTarget : Option String) (unlinkOk : Bool) (m : String)
    (h : nfs_unlock_segment basedir dataset_id segment inst (some l) readlinkTarget unlinkOk =
      .error (.segmentUnlockError m)) :
    lambda_handler_sqlite basedir dataset_id segment inst (.ok l) (.ok ())
      readlinkTarget unlinkOk = .ok 201 := by
  simp [lambda_handler_sqlite, h, catchesSegmentLockError]

/-- Witness for C6: ownership was lost (symlink now points at B's sentinel),
the release fails, and the handler still returns 201. -/
theorem C6_release_error_logged_not_surfaced_witness :
    lambda_handler_sqlite "/mnt" "D" "segment-0" "A"
      (.ok ⟨"/mnt/D/segment-0/.locks/A.lck", 0⟩) (.ok ())
      (some "/mnt/D/segment-0/.locks/B.lck") true = .ok 201 :=
  C6_release_error_logged_not_surfaced "/mnt" "D" "segment-0" "A"
    ⟨"/mnt/D/segment-0/.locks/A.lck", 0⟩ (some "/mnt/D/segment-0/.locks/B.lck") true
    "Cannot unlock segment /mnt/D/segment-0/.locks/segment-0.lck, it is owned by /mnt/D/segment-0/.locks/B.lck"
    (by decide)

/-- C7 counterexample: a run whose first conditional PUT fails with HTTP 409
retries and succeeds with *no* sleep action anywhere in its trace — the
object-store acquire loop, unlike the filesystem one, never calls
`time.sleep(delay)` on the 409/412 path. -/
theorem C7_counterexample_no_sleep_on_conflict :
    (s3_lock_segment "D" "segment-0" "A" (fun _ => 0)
        (fun p => if p = 0 then PutOutcome.clientError 409 else PutOutcome.success "\"abc\"")
        S3_DEFAULT_TIMEOUT S3_DEFAULT_DELAY 3).1 = [S3Action.putAttempt, S3Action.putAttempt] ∧
    (fun p => if p = 0 then PutOutcome.clientError 409 else PutOutcome.success "\"abc\"") 0 =
      PutOutcome.clientError 409 ∧
    S3Action.sleepSec S3_DEFAULT_DELAY ∉
      (s3_lock_segment "D" "segment-0" "A" (fun _ => 0)
        (fun p => if p = 0 then PutOutcome.clientError 409 else PutOutcome.success "\"abc\"")
        S3_DEFAULT_TIMEOUT S3_DEFAULT_DELAY 3).1 ∧
    (s3_lock_segment "D" "segment-0" "A" (fun _ => 0)
        (fun p => if p = 0 then PutOutcome.clientError 409 else PutOutcome.success "\"abc\"")
        S3_DEFAULT_TIMEOUT S3_DEFAULT_DELAY 3).2 = .ok ⟨"abc", 0⟩ :=
  ⟨by decide, by decide, by decide, by decide⟩

/-- C7 (amended): on a 409/412 `ClientError` the object-store acquire loop
re-enters immediately — its traces consist of put attempts only, never a
sleep; any `ClientError` with a different status raises `SegmentLockError` at
once; when `clock() - start` reaches `timeout · 10⁹` nanoseconds the loop
check fails and `SegmentLockError` is raised; the default timeout is 300
seconds. -/
theorem C7_acquire_loop_retry_and_timeout :
    (∀ (clock : Nat → Int) (puts : Nat → PutOutcome) (timeout delay : Nat) (segment : String)
        (fuel c p : Nat) (a : S3Action),
      a ∈ (s3LockRun clock puts timeout delay segment fuel c p []).1 →
        a = S3Action.putAttempt) ∧
    (∀ (clock : Nat → Int) (puts : Nat → PutOutcome) (timeout delay : Nat) (segment : String)
        (fuel c p status : Nat) (acts : List S3Action),
      clock c - clock 0 < ((timeout * NS_PER_S : Nat) : Int) →
      puts p = PutOutcome.clientError status → (status = 409 ∨ status = 412) →
      s3LockRun clock puts timeout delay segment (fuel + 1) c p acts =
        s3LockRun clock puts timeout delay segment fuel (c + 1) (p + 1)
          (S3Action.putAttempt :: acts)) ∧
    (∀ (clock : Nat → Int) (puts : Nat → PutOutcome) (timeout delay : Nat) (segment : String)
        (fuel c p status : Nat) (acts : List S3Action),
      clock c - clock 0 < ((timeout * NS_PER_S : Nat) : Int) →
      puts p = PutOutcome.clientError status → ¬(status = 409 ∨ status = 412) →
      (s3LockRun clock puts timeout delay segment (fuel + 1) c p acts).2 =
        .error (.segmentLockError "Cannot acquire lock, communication error.")) ∧
    (∀ (clock : Nat → Int) (puts : Nat → PutOutcome) (timeout delay : Nat) (segment : String)
        (fuel c p : Nat) (acts : List S3Action),
      ((timeout * NS_PER_S : Nat) : Int) ≤ clock c - clock 0 →
      (s3LockRun clock puts timeout delay segment (fuel + 1) c p acts).2 =
        .error (.segmentLockError
          ("Cannot acquire lock, timeout after " ++ toString timeout ++ " seconds. " ++ segment))) ∧
    S3_DEFAULT_TIMEOUT = 300 := by
  refine ⟨?_, ?_, ?_, ?_, rfl⟩
  · intro clock puts timeout delay segment fuel c p a ha
    exact s3LockRun_actions clock puts timeout delay segment fuel c p [] (by simp) a ha
  · intro clock puts timeout delay segment fuel c p status acts hcond hput hst
    simp only [s3LockRun]
    rw [if_pos hcond, hput]
    dsimp only
    rw [if_pos hst]
  · intro clock puts timeout delay segment fuel c p status acts hcond hput hst
    simp only [s3LockRun]
    rw [if_pos hcond, hput]
    dsimp only
    rw [if_neg hst]
  · intro clock puts timeout delay segment fuel c p acts hge
    simp only [s3LockRun]
    rw [if_neg (not_lt.mpr hge)]

/-- Witness for C7 (amended): a 503 `ClientError` fails immediately; a clock
already at the 300 · 10⁹ ns deadline fails with the timeout error. -/
theorem C7_acquire_loop_retry_and_timeout_witness :
    (s3LockRun (fun _ => 0) (fun _ => PutOutcome.clientError 503) 300 5 "segment-0" 1 1 0 []).2 =
      .error (.segmentLockError "Cannot acquire lock, communication error.") ∧
    (s3LockRun (fun n => if n = 0 then 0 else 300000000000)
        (fun _ => PutOutcome.clientError 409) 300 5 "segment-0" 1 1 0 []).2 =
      .error (.segmentLockError "Cannot acquire lock, timeout after 300 seconds. segment-0") :=
  ⟨C7_acquire_loop_retry_and_timeout.2.2.1 (fun _ => 0) (fun _ => PutOutcome.clientError 503)
      300 5 "segment-0" 0 1 0 503 [] (by decide) rfl (by decide),
   C7_acquire_loop_retry_and_timeout.2.2.2.1 (fun n => if n = 0 then 0 else 300000000000)
      (fun _ => PutOutcome.clientError 409) 300 5 "segment-0" 0 1 0 [] (by decide)⟩

/-- C8 counterexample: with the default CSV formatter the text appended for a
record with timestamp `1700000000000000000`, correlation-id `abc` and value
`7` is `abc,1700000000000000000,7\x0d\n\n` — correlation-id first (the call
site swaps the formatter's first two arguments), CRLF-terminated by
`csv.writer`, plus the extra `\n` added by `_append_record` — not the claimed
`1700000000000000000,abc,7\n`. -/
theorem C8_counterexample_column_line :
    append_record_line "1700000000000000000" "abc" "7" = "abc,1700000000000000000,7\r\n\n" ∧
    append_record_line "1700000000000000000" "abc" "7" ≠ "1700000000000000000,abc,7\n" :=
  ⟨by decide, by decide⟩

lemma csvQuoteField_plain (s : String)
    (h : s.data.any (fun c => c = ',' ∨ c = '"' ∨ c = '\r' ∨ c = '\n') = false) :
    csvQuoteField s = s := by
  unfold csvQuoteField
  rw [if_neg]
  intro hc
  rw [h] at hc
  simp at hc

/-- C8 (amended): in column-file mode with the default formatter, the text
appended to a column file for fields free of CSV-special characters is the
record's correlation-id, then its timestamp, then the value, comma-separated,
terminated by CRLF and a further newline. -/
theorem C8_column_line_swapped_fields (ts cid v : String)
    (hts : ts.data.any (fun c => c = ',' ∨ c = '"' ∨ c = '\r' ∨ c = '\n') = false)
    (hcid : cid.data.any (fun c => c = ',' ∨ c = '"' ∨ c = '\r' ∨ c = '\n') = false)
    (hv : v.data.any (fun c => c = ',' ∨ c = '"' ∨ c = '\r' ∨ c = '\n') = false) :
    append_record_line ts cid v = cid ++ "," ++ ts ++ "," ++ v ++ "\r\n" ++ "\n" := by
  unfold append_record_line create_csv_string
  rw [csvQuoteField_plain cid hcid, csvQuoteField_plain ts hts, csvQuoteField_plain v hv]

/-- Witness for C8 (amended) at the spec's scenario record. -/
theorem C8_column_line_swapped_fields_witness :
    append_record_line "1700000000000000000" "abc" "7" =
      "abc" ++ "," ++ "1700000000000000000" ++ "," ++ "7" ++ "\r\n" ++ "\n" :=
  C8_column_line_swapped_fields "1700000000000000000" "abc" "7" (by decide) (by decide) (by decide)

/-- C9 counterexample: the service parser (`src/services/ingest_svc`) performs
no correlation-id length check — a body with a 61-character correlation-id is
accepted. -/
theorem C9_counterexample_service_accepts_long_correlation :
    dictGet (parse_key_values
        "dataset-id=D\ntimestamp-ns=5\ncorrelation-id=aaaaaaaaaaaaaaaaaaaaaaaaaaaaaaaaaaaaaaaaaaaaaaaaaaaaaaaaaaaaa")
        "correlation-id" =
      some "aaaaaaaaaaaaaaaaaaaaaaaaaaaaaaaaaaaaaaaaaaaaaaaaaaaaaaaaaaaaa" ∧
    ("aaaaaaaaaaaaaaaaaaaaaaaaaaaaaaaaaaaaaaaaaaaaaaaaaaaaaaaaaaaaa" : String).length = 61 ∧
    (svc_body_to_dict
        "dataset-id=D\ntimestamp-ns=5\ncorrelation-id=aaaaaaaaaaaaaaaaaaaaaaaaaaaaaaaaaaaaaaaaaaaaaaaaaaaaaaaaaaaaa").isOk =
      true :=
  ⟨by decide, by decide, by decide⟩

/-- C9 (amended): only the legacy parser (`src/ingest-lambda/ingest_lambda.py`)
bounds the correlation-id: for a body whose earlier checks pass, a
correlation-id longer than 60 characters fails with
`BodyError('Specified correlation-id is too long')` and a non-empty one of at
most 60 characters is accepted; the service parser accepts any non-empty
correlation-id regardless of length. -/
theorem C9_legacy_length_check (body : String) (d c : String) (ns ms : Int)
    (hd : dictGet (parse_key_values body) "dataset-id" = some d)
    (hd0 : ¬(d.length = 0))
    (hpresent : ¬((dictGet (parse_key_values body) "timestamp-ns").isNone ∧
      (dictGet (parse_key_values body) "timestamp-ms").isNone))
    (hts : timestampValues (parse_key_values body) = .ok (ns, ms))
    (hc : dictGet (parse_key_values body) "correlation-id" = some c)
    (hc0 : ¬(c.length = 0)) :
    (CORRELATION_CHARWIDTH < c.length →
      legacy_body_to_dict body = .error (.bodyError "Specified correlation-id is too long")) ∧
    (¬(CORRELATION_CHARWIDTH < c.length) → ∃ kv, legacy_body_to_dict body = .ok kv) ∧
    (∃ kv, svc_body_to_dict body = .ok kv) := by
  have hc2 : dictGet (dictInsert (dictInsert (parse_key_values body) "timestamp-ns"
      (toString ns)) "timestamp-ms" (toString ms)) "correlation-id" = some c := by
    rw [dictGet_insert_ne _ _ _ _ (by decide), dictGet_insert_ne _ _ _ _ (by decide), hc]
  refine ⟨?_, ?_, ?_⟩
  · intro hlong
    simp only [legacy_body_to_dict]
    rw [hd]
    dsimp only
    rw [if_neg hd0, if_neg hpresent, hts]
    dsimp only
    rw [hc2]
    dsimp only
    rw [if_neg hc0, if_pos hlong]
  · intro hshort
    simp only [legacy_body_to_dict]
    rw [hd]
    dsimp only
    rw [if_neg hd0, if_neg hpresent, hts]
    dsimp only
    rw [hc2]
    dsimp only
    rw [if_neg hc0, if_neg hshort]
    exact ⟨_, rfl⟩
  · simp only [svc_body_to_dict]
    rw [hd]
    dsimp only
    rw [if_neg hd0, if_neg hpresent, hts]
    dsimp only
    rw [hc2]
    dsimp only
    rw [if_neg hc0]
    exact ⟨_, rfl⟩

/-- Witness for C9 (amended): the legacy parser rejects a 61-character
correlation-id that the service parser accepts. -/
theorem C9_legacy_length_check_witness :
    legacy_body_to_dict
        "dataset-id=D\ntimestamp-ns=5\ncorrelation-id=aaaaaaaaaaaaaaaaaaaaaaaaaaaaaaaaaaaaaaaaaaaaaaaaaaaaaaaaaaaaa" =
      .error (.bodyError "Specified correlation-id is too long") :=
  (C9_legacy_length_check
      "dataset-id=D\ntimestamp-ns=5\ncorrelation-id=aaaaaaaaaaaaaaaaaaaaaaaaaaaaaaaaaaaaaaaaaaaaaaaaaaaaaaaaaaaaa"
      "D" "aaaaaaaaaaaaaaaaaaaaaaaaaaaaaaaaaaaaaaaaaaaaaaaaaaaaaaaaaaaaa" 5 0
      (by decide) (by decide) (by decide) (by decide) (by decide) (by decide)).1 (by decide)

/-- C10: a body containing a non-empty `dataset-id` and a `timestamp-ns` (or,
failing that, a `timestamp-ms`) line whose value is not a valid decimal
integer makes the parser raise `ValueError` (from `int()`), not `BodyError`;
the handler catches neither at parse time, so such requests propagate the
`ValueError` instead of taking the 400 path. -/
theorem C10_malformed_timestamp_raises_valueerror (body : String) (d : String)
    (hd : dictGet (parse_key_values body) "dataset-id" = some d) (hd0 : ¬(d.length = 0)) :
    (∀ s, dictGet (parse_key_values body) "timestamp-ns" = some s → pyInt s = none →
      svc_body_to_dict body = .error .valueError) ∧
    (∀ s, dictGet (parse_key_values body) "timestamp-ns" = none →
      dictGet (parse_key_values body) "timestamp-ms" = some s → pyInt s = none →
      svc_body_to_dict body = .error .valueError) ∧
    (∀ (basedir inst : String) (lockRes : Except PyExc NfsLockIdentifier)
        (writeRes : Except PyExc Unit) (readlinkTarget : Option String) (unlinkOk : Bool),
      svc_body_to_dict body = .error .valueError →
      lambda_handler body basedir inst lockRes writeRes readlinkTarget unlinkOk =
        .error .valueError) := by
  refine ⟨?_, ?_, ?_⟩
  · intro s hns hbad
    have hTV : timestampValues (parse_key_values body) = .error .valueError := by
      unfold timestampValues
      rw [hns]
      dsimp only
      rw [hbad]
    simp only [svc_body_to_dict]
    rw [hd]
    dsimp only
    rw [if_neg hd0, if_neg (by simp [hns]), hTV]
  · intro s hns hms hbad
    have hTV : timestampValues (parse_key_values body) = .error .valueError := by
      unfold timestampValues
      rw [hns]
      dsimp only
      rw [hms]
      dsimp only
      rw [hbad]
    simp only [svc_body_to_dict]
    rw [hd]
    dsimp only
    rw [if_neg hd0, if_neg (by simp [hms]), hTV]
  · intro basedir inst lockRes writeRes readlinkTarget unlinkOk h
    simp only [lambda_handler]
    rw [h]

/-- Witness for C10 at `timestamp-ns=abc`. -/
theorem C10_malformed_timestamp_raises_valueerror_witness :
    svc_body_to_dict "dataset-id=D\ntimestamp-ns=abc" = .error .valueError ∧
    lambda_handler "dataset-id=D\ntimestamp-ns=abc" "/mnt" "A"
        (.ok ⟨"x", 0⟩) (.ok ()) none true = .error .valueError := by
  have h := C10_malformed_timestamp_raises_valueerror "dataset-id=D\ntimestamp-ns=abc" "D"
    (by decide) (by decide)
  have h1 := h.1 "abc" (by decide) (by decide)
  exact ⟨h1, h.2.2 "/mnt" "A" (.ok ⟨"x", 0⟩) (.ok ()) none true h1⟩
